import Mathlib

/-!
Shallow embedding of the booking server of the
Daniels-Pressure-Washing-Booking repository (src/server.js).

The embedding models the POST /api/bookings request handler
(src/server.js lines 113-219) together with its helper functions
(isEmail, isPhone, sanitizeText, sanitizeSmallText, toInt,
lines 74-81) and the appointment window computation
(lines 154-155).  JavaScript strings are modelled as Lean strings
(lists of characters), absent JSON fields as `none`, and the three
external effects that can fail — the database insert and the two
SMTP sends — as boolean flags of an environment record.  The local
date parse performed by `new Date(...)` (whose failure makes the
later `toISOString()` call throw) is modelled as an environment
function returning an optional epoch-millisecond value.
-/

namespace PressureWash

/-- Code points of the JavaScript whitespace class: the class matched by
the regular-expression token backslash-s and stripped by
String.prototype.trim (tab, line feed, vertical tab, form feed,
carriage return, space, no-break space, Ogham space mark, the Unicode
en/em/thin spaces U+2000 to U+200A, line separator, paragraph
separator, narrow no-break space, medium mathematical space,
ideographic space, byte-order mark). -/
def jsWhitespace (c : Char) : Bool :=
  c.toNat == 9 || c.toNat == 10 || c.toNat == 11 || c.toNat == 12 ||
  c.toNat == 13 || c.toNat == 32 || c.toNat == 160 || c.toNat == 5760 ||
  (decide (8192 ≤ c.toNat) && decide (c.toNat ≤ 8202)) ||
  c.toNat == 8232 || c.toNat == 8233 || c.toNat == 8239 ||
  c.toNat == 8287 || c.toNat == 12288 || c.toNat == 65279

/-- The character class [0-9] of the validators in src/server.js
(code points 48 to 57). -/
def digitChar (c : Char) : Bool :=
  decide (48 ≤ c.toNat) && decide (c.toNat ≤ 57)

/-- JavaScript truthiness of an optional string value: `undefined` and
the empty string are falsy, every other string is truthy.  Used by the
required-field test `!name || !email || ...` (src/server.js line 127)
and the guards on lines 122 and 205. -/
def truthy (v : Option String) : Bool :=
  !((v.getD "") == "")

/-- String.prototype.trim on a character list: drop JavaScript
whitespace from both ends. -/
def jsTrimList (l : List Char) : List Char :=
  ((l.dropWhile jsWhitespace).reverse.dropWhile jsWhitespace).reverse

/-- String.prototype.trim. -/
def jsTrim (s : String) : String :=
  String.mk (jsTrimList s.toList)

/-- src/server.js line 76:
`function sanitizeText(v) { return String(v || '').trim().slice(0, 2000); }`.
An absent value (`undefined`, falsy) becomes the empty string. -/
def sanitizeText (v : Option String) : String :=
  String.mk ((jsTrimList (v.getD "").toList).take 2000)

/-- src/server.js line 77:
`function sanitizeSmallText(v) { return String(v || '').trim().slice(0, 200); }`. -/
def sanitizeSmallText (v : Option String) : String :=
  String.mk ((jsTrimList (v.getD "").toList).take 200)

/-- The character class of the local part and of the domain of the email
regular expression of src/server.js line 74: any character that is
neither JavaScript whitespace nor the at sign. -/
def emailChar (c : Char) : Bool :=
  !(jsWhitespace c) && !(c == '@')

/-- Split a character list at its first at sign: returns the characters
before the first at sign and the characters after it, or `none` when
the list has no at sign. -/
def findAt : List Char → Option (List Char × List Char)
  | [] => none
  | c :: rest =>
    if c == '@' then some ([], rest)
    else
      match findAt rest with
      | none => none
      | some p => some (c :: p.1, p.2)

/-- src/server.js line 74:
`function isEmail(v) { return /^[^\s@]+@[^\s@]+\.[^\s@]+$/.test(v); }`.
The anchored regular expression matches exactly the strings of the form
L @ D where L is a non-empty run of characters that are neither
whitespace nor at signs (the local part ends at the first at sign of
the string, since the class excludes the at sign), and D is a run of
the same class of characters containing a dot that has at least one
character before it and one after it inside D (the pattern X+ dot Y+,
whose class also contains the dot itself).  The dot condition is
expressed as: the domain, with its first and its last character
removed, contains a dot. -/
def isEmail (s : String) : Bool :=
  match findAt s.toList with
  | none => false
  | some (l, d) =>
    !l.isEmpty && l.all emailChar && d.all emailChar &&
      ((d.drop 1).dropLast.contains '.')

/-- The character class of the phone regular expression of
src/server.js line 75: digits, hyphen, plus, parentheses, and any
JavaScript whitespace character (the class contains backslash-s). -/
def phoneChar (c : Char) : Bool :=
  digitChar c || c == '-' || c == '+' || c == '(' || c == ')' || jsWhitespace c

/-- src/server.js line 75:
`function isPhone(v) { return /^[0-9\-\+\(\)\s]{7,}$/.test(v); }`:
at least seven characters, all drawn from `phoneChar`. -/
def isPhone (s : String) : Bool :=
  decide (7 ≤ s.toList.length) && s.toList.all phoneChar

/-- Value of a list of decimal digit characters, most significant
first. -/
def digitsToNat (l : List Char) : Nat :=
  l.foldl (fun acc c => acc * 10 + (c.toNat - 48)) 0

/-- The maximal leading run of decimal digits of a character list, as a
number; `none` when the list does not start with a digit.  This is the
digit-consuming phase of JavaScript parseInt with radix 10. -/
def leadingDigits (l : List Char) : Option Nat :=
  let ds := l.takeWhile digitChar
  if ds.isEmpty then none else some (digitsToNat ds)

/-- Number of binary digits of `n`, computed with an explicit fuel of
1100 halving steps.  The fuel covers every value below 2 to the 1100;
for even larger values the capped result makes `roundToDouble` take its
overflow branch, which is the correct IEEE-754 outcome for all of them
(they are far above the double overflow threshold). -/
def bitLenAux : Nat → Nat → Nat
  | 0, _ => 0
  | fuel + 1, n => if n == 0 then 0 else bitLenAux fuel (n / 2) + 1

/-- Bit length with fuel 1100 (see `bitLenAux`). -/
def bitLen (n : Nat) : Nat :=
  bitLenAux 1100 n

/-- Conversion of a non-negative mathematical integer to the nearest
IEEE-754 double (ECMA-262 Number value), expressed in exact integer
arithmetic: integers below 2 to the 53 are representable exactly;
larger ones are rounded to 53 significant bits, to nearest with ties
to the even mantissa; a rounded value reaching 2 to the 1024
overflows, giving Infinity, modelled as `none`.  The result of a
finite conversion is always an integer, since every finite double of
magnitude at least one has a non-negative unbiased exponent here. -/
def roundToDouble (n : Nat) : Option Nat :=
  if n < 2 ^ 53 then some n
  else
    let e := bitLen n - 53
    let q := n / 2 ^ e
    let r := n % 2 ^ e
    let h := 2 ^ e / 2
    let q2 := if h < r ∨ (r = h ∧ q % 2 = 1) then q + 1 else q
    let m := q2 * 2 ^ e
    if m < 2 ^ 1024 then some m else none

/-- Sign-and-digit phase of JavaScript `parseInt(v, 10)` after the
leading whitespace was skipped: one optional sign, then a maximal
non-empty run of decimal digits, whose exact mathematical value is
then converted to an IEEE-754 double (`roundToDouble`); `none` models
both NaN (no digits) and an overflow to Infinity, the sign being
applied to the converted number exactly.  ECMA-262 would also allow an
implementation to replace decimal significant digits after the 20th by
zeros; the model takes the full-precision reading, which is what the
Node runtime of this server does, and the two readings agree on every
value below 2 to the 53. -/
def parseIntList : List Char → Option Int
  | [] => none
  | c :: rest =>
    if c == '-' then
      (leadingDigits rest).bind
        (fun n => (roundToDouble n).map (fun m => -(Int.ofNat m)))
    else if c == '+' then
      (leadingDigits rest).bind (fun n => (roundToDouble n).map Int.ofNat)
    else
      (leadingDigits (c :: rest)).bind
        (fun n => (roundToDouble n).map Int.ofNat)

/-- JavaScript `parseInt(v, 10)` on a string: skip leading whitespace,
accept one optional sign, then read a maximal non-empty run of decimal
digits and convert its value to a double; `none` models NaN and
Infinity, the two outcomes rejected by the `Number.isFinite` test of
`toInt`.  parseInt never throws, and with an explicit radix of 10 no
hexadecimal prefix is recognised. -/
def parseIntJS (s : String) : Option Int :=
  parseIntList (s.toList.dropWhile jsWhitespace)

/-- src/server.js lines 78-81:
`function toInt(v, def = null) { const n = parseInt(v, 10);
return Number.isFinite(n) ? n : def; }` called as `toInt(sqft, null)`
(line 139).  A missing field gives `parseInt(undefined)`, which is NaN,
hence the default null; `Number.isFinite` is true exactly when parseInt
produced a finite number rather than NaN or an overflow to
Infinity. -/
def toInt (v : Option String) : Option Int :=
  v.bind parseIntJS

/-- The two notification emails of the handler: the owner notification
(src/server.js line 208) and the customer confirmation (line 211). -/
inductive EmailKind where
  | owner
  | customer
deriving DecidableEq

/-- An HTTP JSON response of the handler: status code, the `ok` field,
and the `message` or `error` text of the JSON body. -/
structure Response where
  status : Nat
  ok : Bool
  body : String
deriving DecidableEq

/-- A row of the `bookings` table (src/server.js lines 38-51): `sqft`
and `notes` are nullable, every other column is declared NOT NULL.
The handler always binds a string for notes, but the schema admits
null, hence the `Option String` type. -/
structure Booking where
  name : String
  email : String
  phone : String
  address : String
  serviceType : String
  sqft : Option Int
  preferredDate : String
  preferredTime : String
  notes : Option String
  createdAt : String
deriving DecidableEq

/-- A POST /api/bookings JSON body (src/server.js lines 115-119): every
field may be absent; `website` is the honeypot. -/
structure Request where
  name : Option String
  email : Option String
  phone : Option String
  address : Option String
  serviceType : Option String
  sqft : Option String
  preferredDate : Option String
  preferredTime : Option String
  notes : Option String
  website : Option String
deriving DecidableEq

/-- The ambient state of one request: whether the INSERT succeeds
(line 146), the configured TO_EMAIL destination (line 176), whether
each sendMail call succeeds (lines 208 and 211), the server timestamp
`new Date().toISOString()` (line 145), and the local-time parse
`new Date(dateString).getTime()` used on line 154 — `none` models an
Invalid Date, on which the later `toISOString()` call throws. -/
structure Env where
  dbOk : Bool
  toEmail : Option String
  ownerSendOk : Bool
  customerSendOk : Bool
  now : String
  dateParse : String → Option Int

/-- Observable outcome of one request: the HTTP response, the booking
rows inserted by the request, the sendMail calls attempted (in order,
including a final failing one), and the epoch-millisecond start and end
instants passed to buildICS (lines 168-173), when reached. -/
structure Outcome where
  response : Response
  persisted : List Booking
  emailsAttempted : List EmailKind
  icsWindow : Option (Int × Int)
deriving DecidableEq

/-- src/server.js line 122: `if (website && website.trim() !== '')` —
the honeypot short-circuit fires when the field is present, truthy and
non-empty after trimming. -/
def honeypotTriggered (req : Request) : Bool :=
  truthy req.website && !(jsTrim (req.website.getD "") == "")

/-- src/server.js line 127: all seven required fields are truthy. -/
def requiredPresent (req : Request) : Bool :=
  truthy req.name && truthy req.email && truthy req.phone &&
  truthy req.address && truthy req.serviceType &&
  truthy req.preferredDate && truthy req.preferredTime

/-- The POST /api/bookings handler, src/server.js lines 113-219,
translated branch by branch:
honeypot short-circuit (lines 121-124); required-field check
(lines 127-129); email format check (line 130); phone format check
(line 131); sanitization into `clean` (lines 133-143); the INSERT
(lines 146-151), whose failure is caught by the surrounding try/catch
and produces the 500 response of line 217 with nothing persisted;
the appointment window (lines 154-155), where an unparsable date makes
`appointmentStart.toISOString()` (line 171) throw after the row was
already inserted; the owner send, attempted only when TO_EMAIL is
configured (lines 205-209); the customer send, attempted only when the
sanitized email still passes isEmail (lines 210-212); a sendMail
rejection is caught and produces the 500 response while the inserted
row remains; otherwise the 200 success of line 214. -/
def handleBooking (env : Env) (req : Request) : Outcome :=
  if honeypotTriggered req then
    ⟨⟨200, true, "Thanks!"⟩, [], [], none⟩
  else if !requiredPresent req then
    ⟨⟨400, false, "Missing required fields."⟩, [], [], none⟩
  else if !isEmail (req.email.getD "") then
    ⟨⟨400, false, "Invalid email address."⟩, [], [], none⟩
  else if !isPhone (req.phone.getD "") then
    ⟨⟨400, false, "Invalid phone number."⟩, [], [], none⟩
  else
    let clean : Booking :=
      ⟨sanitizeSmallText req.name, sanitizeSmallText req.email,
       sanitizeSmallText req.phone, sanitizeText req.address,
       sanitizeSmallText req.serviceType, toInt req.sqft,
       sanitizeSmallText req.preferredDate, sanitizeSmallText req.preferredTime,
       some (sanitizeText req.notes), env.now⟩
    if !env.dbOk then
      ⟨⟨500, false, "Server error."⟩, [], [], none⟩
    else
      match env.dateParse (clean.preferredDate ++ "T" ++ clean.preferredTime ++ ":00") with
      | none => ⟨⟨500, false, "Server error."⟩, [clean], [], none⟩
      | some start =>
        let window := some (start, start + 60 * 60 * 1000)
        if truthy env.toEmail then
          if !env.ownerSendOk then
            ⟨⟨500, false, "Server error."⟩, [clean], [EmailKind.owner], window⟩
          else if isEmail clean.email then
            if !env.customerSendOk then
              ⟨⟨500, false, "Server error."⟩, [clean],
               [EmailKind.owner, EmailKind.customer], window⟩
            else
              ⟨⟨200, true, "Booking received."⟩, [clean],
               [EmailKind.owner, EmailKind.customer], window⟩
          else
            ⟨⟨200, true, "Booking received."⟩, [clean], [EmailKind.owner], window⟩
        else
          if isEmail clean.email then
            if !env.customerSendOk then
              ⟨⟨500, false, "Server error."⟩, [clean], [EmailKind.customer], window⟩
            else
              ⟨⟨200, true, "Booking received."⟩, [clean], [EmailKind.customer], window⟩
          else
            ⟨⟨200, true, "Booking received."⟩, [clean], [], window⟩

/-- Modelled from the claim C6 wording, for refinement comparison with
`isEmail`: a local part free of whitespace and at signs, then an at
sign, then a non-whitespace domain containing a dot.  Since the local
part may not contain an at sign, it is exactly the segment before the
first at sign of the string. -/
def specEmailShape (s : String) : Bool :=
  let cs := s.toList
  let l := cs.takeWhile (fun c => !(c == '@'))
  let r := cs.drop (l.length + 1)
  cs.contains '@' && !l.isEmpty && l.all (fun c => !(jsWhitespace c)) &&
    !r.isEmpty && r.all (fun c => !(jsWhitespace c)) && r.contains '.'

/-- Modelled from the claim C7 wording, for refinement comparison with
`isPhone`: at least 7 characters drawn only from digits, hyphen, plus,
parentheses, and spaces (the space character proper). -/
def specPhoneShape (s : String) : Bool :=
  decide (7 ≤ s.toList.length) &&
    s.toList.all (fun c => digitChar c || c == '-' || c == '+' ||
      c == '(' || c == ')' || c == ' ')

/-- A benign environment: the insert succeeds, no owner destination is
configured, sends succeed, and every date string parses to epoch
instant 0. -/
def okEnv : Env :=
  ⟨true, none, true, true, "2025-01-01T00:00:00.000Z", fun _ => some 0⟩

/-- The valid example submission of the specification (section 8). -/
def okReq : Request :=
  ⟨some "Jo", some "jo@x.com", some "555-1212", some "1 Main St",
   some "Driveway", none, some "2025-06-01", some "09:00", none, none⟩

/-- The booking row that `handleBooking okEnv okReq` inserts. -/
def okStored : Booking :=
  ⟨"Jo", "jo@x.com", "555-1212", "1 Main St", "Driveway", none,
   "2025-06-01", "09:00", some "", "2025-01-01T00:00:00.000Z"⟩

/-- The example submission with a whitespace-only name: the name is
empty after trimming, yet truthy, so the required-field test of
line 127 does not reject it. -/
def wsNameReq : Request :=
  { okReq with name := some " " }

/-- A submission whose honeypot field is a non-empty string consisting
of one space: truthy, but empty after trimming; the name is missing. -/
def wsSiteReq : Request :=
  { okReq with website := some " ", name := none }

/-- The spec section 8 bot example: honeypot filled with a URL. -/
def botReq : Request :=
  { okReq with website := some "http://spam.biz" }

/-- The valid submission with a phone of six digits and a tab: seven
characters of the backslash-s-containing class of the phone regular
expression, but not of the claim C7 shape. -/
def tabPhoneReq : Request :=
  { okReq with phone := some "123456\t" }

/-- The spec section 8 invalid-email example. -/
def badEmailReq : Request :=
  { okReq with email := some "not-an-email" }

/-- A submission with a phone that fails the phone check. -/
def badPhoneReq : Request :=
  { okReq with phone := some "555" }

/-- A submission with no name field. -/
def noNameReq : Request :=
  { okReq with name := none }

/-- The benign environment with an owner destination configured and an
owner send that fails. -/
def ownerFailEnv : Env :=
  { okEnv with toEmail := some "owner@biz.com", ownerSendOk := false }

/-- The benign environment with a failing insert. -/
def badDbEnv : Env :=
  { okEnv with dbOk := false }

/-- A submission whose email has a dot directly after the at sign: it
fits the claim C6 description of the accepted shape, but the regular
expression rejects it. -/
def dotEmailReq : Request :=
  { okReq with email := some "a@.b" }

/-- The valid submission with a numeric square-footage field. -/
def sqftReq : Request :=
  { okReq with sqft := some "750" }

/-- The digits of 10 to the 309, a numeric value above the IEEE-754
double overflow threshold of about 1.8e308: parseInt turns it into
Infinity, which fails the Number.isFinite test of toInt. -/
def hugeDigits : List Char :=
  '1' :: List.replicate 309 '0'

end PressureWash

namespace PressureWash

/-- Splitting at the first at sign decomposes the list. -/
theorem findAt_eq {cs l d : List Char} (h : findAt cs = some (l, d)) :
    cs = l ++ '@' :: d := by
  induction cs generalizing l d with
  | nil => simp [findAt] at h
  | cons c rest ih =>
    rw [findAt] at h
    by_cases hc : (c == '@') = true
    · rw [if_pos hc] at h
      simp only [Option.some.injEq, Prod.mk.injEq] at h
      obtain ⟨hl, hd⟩ := h
      subst hl; subst hd
      simp [eq_of_beq hc]
    · rw [if_neg hc] at h
      cases hr : findAt rest with
      | none => rw [hr] at h; simp at h
      | some p =>
        obtain ⟨l2, d2⟩ := p
        rw [hr] at h
        simp only [Option.some.injEq, Prod.mk.injEq] at h
        obtain ⟨hl, hd⟩ := h
        subst hd
        rw [← hl, ih hr]
        simp

/-- A character of the email class is not an at sign. -/
theorem emailChar_ne_at {c : Char} (h : emailChar c = true) : (c == '@') = false := by
  unfold emailChar at h
  simp only [Bool.and_eq_true, Bool.not_eq_true'] at h
  exact h.2

/-- A character of the email class is not whitespace. -/
theorem emailChar_not_ws {c : Char} (h : emailChar c = true) : jsWhitespace c = false := by
  unfold emailChar at h
  simp only [Bool.and_eq_true, Bool.not_eq_true'] at h
  exact h.1

/-- findAt on a list assembled from an at-free prefix. -/
theorem findAt_append {l d : List Char} (h : l.all emailChar = true) :
    findAt (l ++ '@' :: d) = some (l, d) := by
  induction l with
  | nil => simp [findAt]
  | cons c t ih =>
    simp only [List.all_cons, Bool.and_eq_true] at h
    rw [List.cons_append, findAt, if_neg (by simp [emailChar_ne_at h.1]), ih h.2]

/-- A string accepted by isEmail is non-empty and whitespace-free. -/
theorem isEmail_no_ws {s : String} (h : isEmail s = true) :
    s.toList ≠ [] ∧ s.toList.all (fun c => !(jsWhitespace c)) = true := by
  unfold isEmail at h
  cases hf : findAt s.toList with
  | none => rw [hf] at h; exact absurd h (by simp)
  | some p =>
    rw [hf] at h
    obtain ⟨l, d⟩ := p
    simp only [Bool.and_eq_true] at h
    obtain ⟨⟨⟨_, hl⟩, hd⟩, _⟩ := h
    have hcs := findAt_eq hf
    constructor
    · rw [hcs]; simp
    · rw [hcs]
      simp only [List.all_append, List.all_cons, Bool.and_eq_true]
      refine ⟨?_, by decide, ?_⟩
      · simp only [List.all_eq_true] at hl ⊢
        exact fun c hc => by simp [emailChar_not_ws (hl c hc)]
      · simp only [List.all_eq_true] at hd ⊢
        exact fun c hc => by simp [emailChar_not_ws (hd c hc)]

/-- dropWhile is the identity when no element satisfies the predicate. -/
theorem dropWhile_of_all {p : Char → Bool} {l : List Char}
    (h : l.all (fun c => !(p c)) = true) : l.dropWhile p = l := by
  cases l with
  | nil => rfl
  | cons c t =>
    simp only [List.all_cons, Bool.and_eq_true, Bool.not_eq_true'] at h
    exact List.dropWhile_cons_of_neg (by simp [h.1])

/-- Trimming a whitespace-free list is the identity. -/
theorem jsTrimList_of_all {l : List Char}
    (h : l.all (fun c => !(jsWhitespace c)) = true) : jsTrimList l = l := by
  unfold jsTrimList
  rw [dropWhile_of_all h, dropWhile_of_all (by simpa using h), List.reverse_reverse]

/-- Taking a positive number of elements of a non-empty list is
non-empty. -/
theorem take_ne_nil {l : List Char} {n : Nat} (hl : l ≠ []) (hn : 0 < n) :
    l.take n ≠ [] := by
  intro h
  rcases List.take_eq_nil_iff.mp h with h0 | h0
  · omega
  · exact hl h0

/-- Packing a non-empty character list gives a non-empty string. -/
theorem mk_ne_empty {l : List Char} (h : l ≠ []) : String.mk l ≠ "" := by
  intro he
  exact h (by simpa using congrArg String.data he)

/-- The sanitized form of a value accepted by isEmail is non-empty:
the accepted string has no whitespace, so trimming keeps it intact,
and truncation to 200 characters keeps at least one character. -/
theorem sanitizeSmallText_ne_empty {v : Option String}
    (h : isEmail (v.getD "") = true) : sanitizeSmallText v ≠ "" := by
  obtain ⟨hne, hws⟩ := isEmail_no_ws h
  unfold sanitizeSmallText
  apply mk_ne_empty
  rw [jsTrimList_of_all hws]
  exact take_ne_nil hne (by omega)

/-- Membership gives contains for characters. -/
theorem contains_of_mem {a : Char} {l : List Char} (h : a ∈ l) :
    l.contains a = true :=
  List.elem_eq_true_of_mem h

/-- A decimal digit is not JavaScript whitespace. -/
theorem digitChar_not_ws {c : Char} (h : digitChar c = true) :
    jsWhitespace c = false := by
  simp only [digitChar, Bool.and_eq_true, decide_eq_true_eq] at h
  cases hw : jsWhitespace c
  · rfl
  · exfalso
    simp only [jsWhitespace, Bool.or_eq_true, beq_iff_eq, Bool.and_eq_true,
      decide_eq_true_eq] at hw
    omega

/-- A decimal digit is neither the minus sign nor the plus sign. -/
theorem digitChar_not_sign {c : Char} (h : digitChar c = true) :
    (c == '-') = false ∧ (c == '+') = false := by
  constructor <;>
    refine beq_eq_false_iff_ne.mpr (fun he => ?_) <;>
    rw [he] at h <;> exact absurd h (by decide)

/-- Inversion of the handler on a non-empty persisted list: a row is
inserted only after the four validation gates passed and the insert
succeeded, the row is the sanitized record, and exactly one row is
inserted. -/
theorem persisted_inv {env : Env} {req : Request} {r : Booking}
    {rest : List Booking}
    (h : (handleBooking env req).persisted = r :: rest) :
    honeypotTriggered req = false ∧ requiredPresent req = true ∧
    isEmail (req.email.getD "") = true ∧
    isPhone (req.phone.getD "") = true ∧ env.dbOk = true ∧
    r = ⟨sanitizeSmallText req.name, sanitizeSmallText req.email,
         sanitizeSmallText req.phone, sanitizeText req.address,
         sanitizeSmallText req.serviceType, toInt req.sqft,
         sanitizeSmallText req.preferredDate, sanitizeSmallText req.preferredTime,
         some (sanitizeText req.notes), env.now⟩ ∧
    rest = [] := by
  unfold handleBooking at h
  cases h1 : honeypotTriggered req <;> rw [h1] at h
  case true => simp at h
  cases h2 : requiredPresent req <;> rw [h2] at h
  case false => simp at h
  cases h3 : isEmail (req.email.getD "") <;> rw [h3] at h
  case false => simp at h
  cases h4 : isPhone (req.phone.getD "") <;> rw [h4] at h
  case false => simp at h
  cases h5 : env.dbOk <;> rw [h5] at h
  case false => simp at h
  refine ⟨rfl, rfl, rfl, rfl, rfl, ?_⟩
  simp only [Bool.not_true, Bool.false_eq_true, if_false] at h
  cases hdp : env.dateParse (sanitizeSmallText req.preferredDate ++ "T" ++
      sanitizeSmallText req.preferredTime ++ ":00") <;> rw [hdp] at h
  case none => simp at h; exact ⟨h.1.symm, h.2⟩
  case some start =>
    cases h6 : truthy env.toEmail <;> rw [h6] at h <;>
      cases h7 : env.ownerSendOk <;>
      cases h8 : isEmail (sanitizeSmallText req.email) <;>
      cases h9 : env.customerSendOk <;>
      simp [h7, h8, h9] at h <;>
      exact ⟨h.1.symm, h.2⟩

/-- Branch facts of the handler used by the claims about emails, the
ICS window, and persistence ordering: an attempted send that fails
yields the generic 500 response with the row still persisted; sends
are attempted only after a successful insert; a failed insert persists
nothing and sends nothing; and any ICS window built spans exactly
60*60*1000 milliseconds. -/
theorem handle_facts (env : Env) (req : Request) :
    ((EmailKind.owner ∈ (handleBooking env req).emailsAttempted ∧
        env.ownerSendOk = false) ∨
     (EmailKind.customer ∈ (handleBooking env req).emailsAttempted ∧
        env.customerSendOk = false) →
      (handleBooking env req).response = ⟨500, false, "Server error."⟩ ∧
      (handleBooking env req).persisted ≠ []) ∧
    ((handleBooking env req).emailsAttempted ≠ [] →
      env.dbOk = true ∧ (handleBooking env req).persisted ≠ []) ∧
    (env.dbOk = false →
      (handleBooking env req).persisted = [] ∧
      (handleBooking env req).emailsAttempted = []) ∧
    (∀ p ∈ (handleBooking env req).icsWindow, p.2 = p.1 + 60 * 60 * 1000) := by
  unfold handleBooking
  cases h1 : honeypotTriggered req
  case true => simp
  cases h2 : requiredPresent req
  case false => simp
  cases h3 : isEmail (req.email.getD "")
  case false => simp
  cases h4 : isPhone (req.phone.getD "")
  case false => simp
  cases h5 : env.dbOk
  case false => simp
  simp only [Bool.not_true, Bool.not_false, Bool.false_eq_true, if_false, if_true]
  cases hdp : env.dateParse (sanitizeSmallText req.preferredDate ++ "T" ++
      sanitizeSmallText req.preferredTime ++ ":00")
  case none => simp
  case some start =>
    cases h6 : truthy env.toEmail <;>
      cases h7 : env.ownerSendOk <;>
      cases h8 : isEmail (sanitizeSmallText req.email) <;>
      cases h9 : env.customerSendOk <;>
      simp

/-- Claim C1, counterexample: the claim states that a submission whose
name is empty after trimming whitespace receives a 400-class validation
failure and persists nothing; but the handler tests only JavaScript
falsiness, so a whitespace-only name (empty after trimming, yet a
non-empty string) passes the required-field gate: the request succeeds
with status 200 and one row is persisted. -/
theorem c1_counterexample :
    jsTrim " " = "" ∧
    (handleBooking okEnv wsNameReq).response.status = 200 ∧
    (handleBooking okEnv wsNameReq).response.ok = true ∧
    (handleBooking okEnv wsNameReq).persisted.length = 1 :=
  ⟨rfl, rfl, rfl, rfl⟩

/-- Claim C1, amended: for every submission not short-circuited by the
honeypot, if some required field (name, email, phone, address,
serviceType, preferredDate, preferredTime) is missing or is the empty
string — JavaScript falsy, rather than empty after trimming — then
POST /api/bookings returns status 400 with the message naming missing
required fields, no booking record is persisted, and no email is
attempted.  The second and third conjuncts record that the
required-field gate fails exactly when some field is falsy, and that
falsy means absent or the empty string. -/
theorem c1_theorem :
    (∀ (env : Env) (req : Request), honeypotTriggered req = false →
      requiredPresent req = false →
      (handleBooking env req).response = ⟨400, false, "Missing required fields."⟩ ∧
      (handleBooking env req).persisted = [] ∧
      (handleBooking env req).emailsAttempted = []) ∧
    (∀ req : Request, requiredPresent req = false ↔
      (truthy req.name = false ∨ truthy req.email = false ∨
       truthy req.phone = false ∨ truthy req.address = false ∨
       truthy req.serviceType = false ∨ truthy req.preferredDate = false ∨
       truthy req.preferredTime = false)) ∧
    (∀ v : Option String, truthy v = false ↔ (v = none ∨ v = some "")) := by
  refine ⟨?_, ?_, ?_⟩
  · intro env req h1 h2
    unfold handleBooking
    rw [h1, h2]
    simp
  · intro req
    unfold requiredPresent
    cases truthy req.name <;> cases truthy req.email <;>
      cases truthy req.phone <;> cases truthy req.address <;>
      cases truthy req.serviceType <;> cases truthy req.preferredDate <;>
      cases truthy req.preferredTime <;> simp
  · intro v
    cases v with
    | none => simp [truthy]
    | some s => simp [truthy]

/-- Claim C1, witness for the amended theorem at a concrete input. -/
theorem c1_witness :
    (handleBooking okEnv noNameReq).response =
      ⟨400, false, "Missing required fields."⟩ ∧
    (handleBooking okEnv noNameReq).persisted = [] :=
  ⟨(c1_theorem.1 okEnv noNameReq (by decide) (by decide)).1,
   (c1_theorem.1 okEnv noNameReq (by decide) (by decide)).2.1⟩

/-- Claim C2, counterexample: the claim states that once the record is
persisted the handler returns success even when an email send fails;
but with a configured owner address and a failing owner send, the
handler returns the generic 500 server error although one row was
persisted. -/
theorem c2_counterexample :
    (handleBooking ownerFailEnv okReq).persisted.length = 1 ∧
    (handleBooking ownerFailEnv okReq).emailsAttempted = [EmailKind.owner] ∧
    (handleBooking ownerFailEnv okReq).response.status = 500 ∧
    (handleBooking ownerFailEnv okReq).response.ok = false :=
  ⟨rfl, rfl, rfl, rfl⟩

/-- Claim C2, amended: when an attempted email send fails after the
record has been persisted, the handler does not return success: it
returns the generic 500 server error, while the persisted record
remains in the store (an email-send failure does change the response,
contrary to the original claim). -/
theorem c2_theorem :
    ∀ (env : Env) (req : Request),
      (EmailKind.owner ∈ (handleBooking env req).emailsAttempted ∧
        env.ownerSendOk = false) ∨
      (EmailKind.customer ∈ (handleBooking env req).emailsAttempted ∧
        env.customerSendOk = false) →
      (handleBooking env req).response.status = 500 ∧
      (handleBooking env req).response.ok = false ∧
      (handleBooking env req).persisted ≠ [] := by
  intro env req h
  obtain ⟨hr, hp⟩ := (handle_facts env req).1 h
  exact ⟨by rw [hr], by rw [hr], hp⟩

/-- Claim C2, witness for the amended theorem at a concrete input. -/
theorem c2_witness :
    (handleBooking ownerFailEnv okReq).response.status = 500 ∧
    (handleBooking ownerFailEnv okReq).response.ok = false ∧
    (handleBooking ownerFailEnv okReq).persisted ≠ [] :=
  c2_theorem ownerFailEnv okReq (Or.inl ⟨by decide, rfl⟩)

/-- Claim C3, counterexample: the claim states that every submission
with a non-empty honeypot field receives a success response; but the
handler requires the field to be non-empty after trimming, so a
whitespace-only honeypot (a non-empty string) falls through to
validation and here receives a 400 failure. -/
theorem c3_counterexample :
    wsSiteReq.website = some " " ∧ (" " : String) ≠ "" ∧
    (handleBooking okEnv wsSiteReq).response.status = 400 ∧
    (handleBooking okEnv wsSiteReq).response.ok = false ∧
    (handleBooking okEnv wsSiteReq).persisted = [] :=
  ⟨rfl, by decide, rfl, rfl, rfl⟩

/-- Claim C3, amended: for every submission whose honeypot field
(website) is truthy and non-empty after trimming whitespace, the
handler returns the 200 success response, persists no booking record,
and attempts no email send. -/
theorem c3_theorem :
    ∀ (env : Env) (req : Request), truthy req.website = true →
      jsTrim (req.website.getD "") ≠ "" →
      (handleBooking env req).response = ⟨200, true, "Thanks!"⟩ ∧
      (handleBooking env req).persisted = [] ∧
      (handleBooking env req).emailsAttempted = [] := by
  intro env req h1 h2
  have hh : honeypotTriggered req = true := by
    unfold honeypotTriggered
    rw [h1, beq_eq_false_iff_ne.mpr h2]
    rfl
  unfold handleBooking
  rw [hh]
  simp

/-- Claim C3, witness for the amended theorem at a concrete input. -/
theorem c3_witness :
    (handleBooking okEnv botReq).response = ⟨200, true, "Thanks!"⟩ ∧
    (handleBooking okEnv botReq).persisted = [] ∧
    (handleBooking okEnv botReq).emailsAttempted = [] :=
  c3_theorem okEnv botReq (by decide) (by decide)

/-- Claim C4, confirmed: an email send is attempted only after the
insert has completed successfully (a non-empty attempt list implies a
successful insert and a persisted row), and when persistence fails the
request aborts with nothing persisted and no email attempted. -/
theorem c4_theorem :
    ∀ (env : Env) (req : Request),
      ((handleBooking env req).emailsAttempted ≠ [] →
        env.dbOk = true ∧ (handleBooking env req).persisted ≠ []) ∧
      (env.dbOk = false →
        (handleBooking env req).persisted = [] ∧
        (handleBooking env req).emailsAttempted = []) :=
  fun env req => ⟨(handle_facts env req).2.1, (handle_facts env req).2.2.1⟩

/-- Claim C4, witness at concrete inputs: a request that sends an email
has a persisted row, and a request with a failing insert persists
nothing and attempts no email. -/
theorem c4_witness :
    (okEnv.dbOk = true ∧ (handleBooking okEnv okReq).persisted ≠ []) ∧
    ((handleBooking badDbEnv okReq).persisted = [] ∧
     (handleBooking badDbEnv okReq).emailsAttempted = []) :=
  ⟨(c4_theorem okEnv okReq).1 (by decide), (c4_theorem badDbEnv okReq).2 rfl⟩

/-- Claim C5, counterexample: the claim states that every persisted
record has all fields except sqft and notes non-empty after
sanitization; but a whitespace-only name is truthy, passes validation,
and is persisted as the empty string. -/
theorem c5_counterexample :
    jsTrim " " = "" ∧
    (handleBooking okEnv wsNameReq).persisted.map Booking.name = [""] :=
  ⟨rfl, rfl⟩

/-- Claim C5, amended: every persisted booking record stores the
sanitized (trimmed, truncated) submitted values with a server-side
createdAt, and its email is non-empty after sanitization; the other
client-supplied fields may be empty in the stored record when the
submitted value was whitespace-only, because the required-field gate
tests falsiness before trimming. -/
theorem c5_theorem :
    ∀ (env : Env) (req : Request) (r : Booking) (rest : List Booking),
      (handleBooking env req).persisted = r :: rest →
      r.email ≠ "" ∧
      r.name = sanitizeSmallText req.name ∧
      r.email = sanitizeSmallText req.email ∧
      r.phone = sanitizeSmallText req.phone ∧
      r.address = sanitizeText req.address ∧
      r.serviceType = sanitizeSmallText req.serviceType ∧
      r.preferredDate = sanitizeSmallText req.preferredDate ∧
      r.preferredTime = sanitizeSmallText req.preferredTime ∧
      r.createdAt = env.now ∧ rest = [] := by
  intro env req r rest h
  obtain ⟨_, _, h3, _, _, hr, hrest⟩ := persisted_inv h
  subst hr
  exact ⟨sanitizeSmallText_ne_empty h3, rfl, rfl, rfl, rfl, rfl, rfl, rfl,
    rfl, hrest⟩

/-- Claim C5, witness for the amended theorem at a concrete input. -/
theorem c5_witness :
    okStored.email ≠ "" ∧ okStored.createdAt = okEnv.now :=
  ⟨(c5_theorem okEnv okReq okStored [] (by decide)).1,
   (c5_theorem okEnv okReq okStored [] (by decide)).2.2.2.2.2.2.2.2.1⟩

/-- Claim C6, counterexample: the claim describes the accepted email
shape as a whitespace-and-at-free local part, an at sign, then a
non-whitespace domain containing a dot, and asserts that emails of that
shape pass the check; but "a@.b" fits that description while the
regular expression rejects it (the dot needs a character of the domain
before it), so the handler returns the email-specific 400 error for a
submission the claim says must pass. -/
theorem c6_counterexample :
    specEmailShape "a@.b" = true ∧ isEmail "a@.b" = false ∧
    (handleBooking okEnv dotEmailReq).response =
      ⟨400, false, "Invalid email address."⟩ ∧
    (handleBooking okEnv dotEmailReq).persisted = [] :=
  ⟨by decide, by decide, rfl, rfl⟩

/-- Claim C6, amended: for every submission not short-circuited by the
honeypot and with all required fields present, if the email fails the
format check then the handler returns the email-specific 400 error
before anything is persisted or sent; and the accepted shape is
exactly: a non-empty local part free of whitespace and at signs, an at
sign, then a domain free of whitespace and at signs that contains a
dot with at least one domain character before it and one after it
(second conjunct: every string assembled that way passes the check). -/
theorem c6_theorem :
    (∀ (env : Env) (req : Request), honeypotTriggered req = false →
      requiredPresent req = true → isEmail (req.email.getD "") = false →
      (handleBooking env req).response = ⟨400, false, "Invalid email address."⟩ ∧
      (handleBooking env req).persisted = [] ∧
      (handleBooking env req).emailsAttempted = []) ∧
    (∀ l d1 d2 : List Char, l ≠ [] → d1 ≠ [] → d2 ≠ [] →
      l.all emailChar = true → d1.all emailChar = true →
      d2.all emailChar = true →
      isEmail (String.mk (l ++ '@' :: (d1 ++ '.' :: d2))) = true) := by
  constructor
  · intro env req h1 h2 h3
    unfold handleBooking
    rw [h1, h2, h3]
    simp
  · intro l d1 d2 hl hd1 hd2 al ad1 ad2
    unfold isEmail
    have ht : (String.mk (l ++ '@' :: (d1 ++ '.' :: d2))).toList =
        l ++ '@' :: (d1 ++ '.' :: d2) := rfl
    rw [ht, findAt_append al]
    simp only [Bool.and_eq_true]
    refine ⟨⟨⟨?_, al⟩, ?_⟩, ?_⟩
    · cases l with
      | nil => exact absurd rfl hl
      | cons c t => rfl
    · have hdot : emailChar '.' = true := by decide
      simp [List.all_append, List.all_cons, ad1, ad2, hdot]
    · cases d1 with
      | nil => exact absurd rfl hd1
      | cons c t1 =>
        cases d2 with
        | nil => exact absurd rfl hd2
        | cons e t2 =>
          have hdrop : ((c :: t1) ++ '.' :: e :: t2).drop 1 =
              t1 ++ '.' :: e :: t2 := rfl
          rw [hdrop, List.dropLast_append_cons, List.dropLast_cons₂]
          exact contains_of_mem
            (List.mem_append_right _ (List.mem_cons_self _ _))

/-- Claim C6, witness: the amended rejection branch at the invalid
example email of the specification, and the amended acceptance shape at
a small concrete decomposition. -/
theorem c6_witness :
    (handleBooking okEnv badEmailReq).response =
      ⟨400, false, "Invalid email address."⟩ ∧
    isEmail (String.mk (['j'] ++ '@' :: (['x'] ++ '.' :: ['y']))) = true :=
  ⟨(c6_theorem.1 okEnv badEmailReq (by decide) (by decide) (by decide)).1,
   c6_theorem.2 ['j'] ['x'] ['y'] (by decide) (by decide) (by decide)
     (by decide) (by decide) (by decide)⟩

/-- Claim C7, counterexample: the claim says a phone that is not made
only of digits, hyphen, plus, parentheses, and spaces must fail
validation before persistence; but the regular expression class is
backslash-s, which also accepts tab: a phone of six digits and a tab is
not of the claimed shape, yet the submission passes validation, is
persisted, and succeeds. -/
theorem c7_counterexample :
    specPhoneShape "123456\t" = false ∧ isPhone "123456\t" = true ∧
    (handleBooking okEnv tabPhoneReq).response.status = 200 ∧
    (handleBooking okEnv tabPhoneReq).response.ok = true ∧
    (handleBooking okEnv tabPhoneReq).persisted.length = 1 :=
  ⟨by decide, by decide, rfl, rfl, rfl⟩

/-- Claim C7, amended: for every submission not short-circuited by the
honeypot, with all required fields present and an email passing the
email check, if the phone is not a string of at least 7 characters
drawn from digits, hyphen, plus, parentheses, and whitespace
characters (the whitespace class, not only the space character), the
handler returns the phone-specific 400 error before anything is
persisted or sent; strings of that shape pass the phone check (second
conjunct). -/
theorem c7_theorem :
    (∀ (env : Env) (req : Request), honeypotTriggered req = false →
      requiredPresent req = true → isEmail (req.email.getD "") = true →
      isPhone (req.phone.getD "") = false →
      (handleBooking env req).response = ⟨400, false, "Invalid phone number."⟩ ∧
      (handleBooking env req).persisted = [] ∧
      (handleBooking env req).emailsAttempted = []) ∧
    (∀ s : String, 7 ≤ s.toList.length → s.toList.all phoneChar = true →
      isPhone s = true) := by
  constructor
  · intro env req h1 h2 h3 h4
    unfold handleBooking
    rw [h1, h2, h3, h4]
    simp
  · intro s h1 h2
    unfold isPhone
    rw [h2]
    simp only [Bool.and_true]
    exact decide_eq_true h1

/-- Claim C7, witness for the amended theorem at concrete inputs. -/
theorem c7_witness :
    (handleBooking okEnv badPhoneReq).response =
      ⟨400, false, "Invalid phone number."⟩ ∧
    isPhone "5551212" = true :=
  ⟨(c7_theorem.1 okEnv badPhoneReq (by decide) (by decide) (by decide)
      (by decide)).1,
   c7_theorem.2 "5551212" (by decide) (by decide)⟩

/-- Claim C8, confirmed: whenever the handler builds the calendar
window (src/server.js lines 154-155), the end instant equals the start
instant plus exactly 3600 seconds (3600 * 1000 milliseconds),
whatever the submission — in particular whatever the service type. -/
theorem c8_theorem :
    ∀ (env : Env) (req : Request) (s e : Int),
      (handleBooking env req).icsWindow = some (s, e) →
      e = s + 3600 * 1000 := by
  intro env req s e h
  have hm := (handle_facts env req).2.2.2 (s, e) (by rw [Option.mem_def, h])
  simpa using hm

/-- Claim C8, witness at a concrete input: the benign request yields
the window from instant 0 to instant 3600000. -/
theorem c8_witness :
    (handleBooking okEnv okReq).icsWindow = some (0, 3600000) ∧
    (3600000 : Int) = 0 + 3600 * 1000 :=
  ⟨by decide, c8_theorem okEnv okReq 0 3600000 (by decide)⟩

set_option maxRecDepth 40000 in
/-- Claim C9, counterexample: the claim states that numeric input is
stored as an integer and that the stored integer is the parsed value;
but parseInt returns an IEEE-754 double, so the numeric input 10 to
the 309 (all digits) overflows to Infinity, fails Number.isFinite, and
is stored as null — numeric input stored as absent — while the numeric
input 9007199254740993 (2 to the 53 plus one) is stored rounded to the
even neighbouring double 9007199254740992, not as its own value. -/
theorem c9_counterexample :
    hugeDigits ≠ [] ∧ hugeDigits.all digitChar = true ∧
    toInt (some (String.mk hugeDigits)) = none ∧
    toInt (some "9007199254740993") = some 9007199254740992 :=
  ⟨by decide, by decide, by decide, by decide⟩

set_option maxRecDepth 40000 in
/-- Claim C9, amended: the sqft coercion never causes an error — the
response of the handler is unchanged under any change of the sqft
field, and a persisted row stores exactly `toInt` of the submitted
sqft (an integer or null).  Numeric input is converted to an IEEE-754
double: every all-digit string below 2 to the 53 is stored exactly as
its written integer value; a larger numeric value is stored as the
nearest double — an integer, possibly rounded, as the concrete
conjunct for 2 to the 53 plus one shows — and a numeric value at or
above the double overflow threshold (about 1.8e308) becomes Infinity
and is stored as null.  Non-numeric or absent input is stored as
null. -/
theorem c9_theorem :
    ∀ (env : Env) (req : Request) (v : Option String),
      ((handleBooking env { req with sqft := v }).response =
        (handleBooking env req).response) ∧
      (∀ (r : Booking) (rest : List Booking),
        (handleBooking env req).persisted = r :: rest →
        r.sqft = toInt req.sqft) ∧
      (∀ ds : List Char, ds ≠ [] → ds.all digitChar = true →
        digitsToNat ds < 2 ^ 53 →
        toInt (some (String.mk ds)) = some ((digitsToNat ds : Nat) : Int)) ∧
      toInt (some "abc") = none ∧ toInt none = none ∧
      toInt (some "9007199254740993") = some 9007199254740992 ∧
      toInt (some (String.mk hugeDigits)) = none := by
  intro env req v
  refine ⟨?_, ?_, ?_, rfl, rfl, by decide, by decide⟩
  · have e0 : honeypotTriggered { req with sqft := v } =
        honeypotTriggered req := rfl
    have e1 : requiredPresent { req with sqft := v } =
        requiredPresent req := rfl
    have e2 : ({ req with sqft := v } : Request).email = req.email := rfl
    have e3 : ({ req with sqft := v } : Request).phone = req.phone := rfl
    have e4 : ({ req with sqft := v } : Request).name = req.name := rfl
    have e5 : ({ req with sqft := v } : Request).address = req.address := rfl
    have e6 : ({ req with sqft := v } : Request).serviceType =
        req.serviceType := rfl
    have e7 : ({ req with sqft := v } : Request).preferredDate =
        req.preferredDate := rfl
    have e8 : ({ req with sqft := v } : Request).preferredTime =
        req.preferredTime := rfl
    have e9 : ({ req with sqft := v } : Request).notes = req.notes := rfl
    unfold handleBooking
    rw [e0, e1, e2, e3, e4, e5, e6, e7, e8, e9]
    cases h1 : honeypotTriggered req
    case true => rfl
    cases h2 : requiredPresent req
    case false => rfl
    cases h3 : isEmail (req.email.getD "")
    case false => rfl
    cases h4 : isPhone (req.phone.getD "")
    case false => rfl
    cases h5 : env.dbOk
    case false => rfl
    simp only [Bool.not_true, Bool.not_false, Bool.false_eq_true, if_false,
      if_true]
    cases hdp : env.dateParse (sanitizeSmallText req.preferredDate ++ "T" ++
        sanitizeSmallText req.preferredTime ++ ":00")
    case none => rfl
    case some start =>
      cases h6 : truthy env.toEmail <;>
        cases h7 : env.ownerSendOk <;>
        cases h8 : isEmail (sanitizeSmallText req.email) <;>
        cases h9 : env.customerSendOk <;>
        rfl
  · intro r rest h
    obtain ⟨_, _, _, _, _, hr, _⟩ := persisted_inv h
    rw [hr]
  · intro ds hne hall h53
    have hb : toInt (some (String.mk ds)) = parseIntJS (String.mk ds) := rfl
    rw [hb]
    unfold parseIntJS
    have hlist : (String.mk ds).toList = ds := rfl
    have hnws : ds.all (fun c => !(jsWhitespace c)) = true := by
      simp only [List.all_eq_true] at hall ⊢
      exact fun c hc => by simp [digitChar_not_ws (hall c hc)]
    rw [hlist, dropWhile_of_all hnws]
    cases ds with
    | nil => exact absurd rfl hne
    | cons c rest =>
      simp only [List.all_cons, Bool.and_eq_true] at hall
      obtain ⟨hm, hp⟩ := digitChar_not_sign hall.1
      rw [parseIntList, if_neg (by simp [hm]), if_neg (by simp [hp])]
      unfold leadingDigits
      have htw : (c :: rest).takeWhile digitChar = c :: rest :=
        List.takeWhile_eq_self_iff.mpr (by
          intro x hx
          rcases List.mem_cons.mp hx with rfl | hx2
          · exact hall.1
          · exact (List.all_eq_true.mp hall.2) x hx2)
      rw [htw]
      have hred : (if (c :: rest).isEmpty = true then none
            else some (digitsToNat (c :: rest))).bind
            (fun n => (roundToDouble n).map Int.ofNat) =
          (roundToDouble (digitsToNat (c :: rest))).map Int.ofNat := rfl
      rw [hred]
      unfold roundToDouble
      rw [if_pos h53]
      rfl

/-- Claim C9, witness for the quantified conjuncts at concrete
inputs. -/
theorem c9_witness :
    (handleBooking okEnv sqftReq).response =
      (handleBooking okEnv okReq).response ∧
    okStored.sqft = toInt okReq.sqft ∧
    toInt (some (String.mk ['1', '2', '0', '0'])) =
      some ((digitsToNat ['1', '2', '0', '0'] : Nat) : Int) :=
  ⟨(c9_theorem okEnv okReq (some "750")).1,
   (c9_theorem okEnv okReq (some "750")).2.1 okStored [] (by decide),
   (c9_theorem okEnv okReq (some "750")).2.2.1 ['1', '2', '0', '0']
     (by decide) (by decide) (by decide)⟩

/-- Claim C10, confirmed: when the optional notes field is omitted, the
persisted record stores notes as the empty string (sanitization maps a
missing value to the empty string), not as a null value. -/
theorem c10_theorem :
    ∀ (env : Env) (req : Request) (r : Booking) (rest : List Booking),
      req.notes = none → (handleBooking env req).persisted = r :: rest →
      r.notes = some "" := by
  intro env req r rest hn h
  obtain ⟨_, _, _, _, _, hr, _⟩ := persisted_inv h
  rw [hr, hn]
  rfl

/-- Claim C10, witness at a concrete input: the benign request omits
notes and its persisted row stores the empty string. -/
theorem c10_witness :
    okStored.notes = some "" :=
  c10_theorem okEnv okReq okStored [] rfl (by decide)

end PressureWash

